import Mathlib

/-!
Verification of the NPHIES gateway core: domain validators, retry/backoff
utility, token cache, and the gateway schema layer.

Sources embedded here:
  - src/lib/nphies-types.ts   (NPHIESValidator and request shapes)
  - src/lib/retry-utils.ts    (retryWithBackoff, isRetryableError)
  - src/lib/nphies-api.ts     (frontend client retry wiring)
  - backend Express gateway   (zod schemas, NPHIESClient token cache)

Modelling conventions: JS strings are Lean String (all inputs in play are
ASCII, where JS UTF-16 length coincides with codepoint count); JS numbers
are Lean Int (every numeric comparison in the embedded code is against 0,
exact on integers); Date.now timestamps are Nat milliseconds; the opaque
JS Date.parse is a Bool-valued oracle parameter of the eligibility
validator; async operations are functions from the invocation number
(1-based) to an Except outcome.
-/

namespace Nphies

/-- Character class [A-Z0-9] used by the insurance-id and service-code
regexes. Char.isUpper and Char.isDigit are exactly the ASCII ranges. -/
def isUpperAlnum (c : Char) : Bool := c.isUpper || c.isDigit

/-- NPHIESValidator.validatePatientId: regex ^[0-9]{10}$ . -/
def validatePatientId (id : String) : Bool :=
  id.length == 10 && id.data.all Char.isDigit

/-- NPHIESValidator.validateInsuranceId: regex ^[A-Z0-9]{8,12}$ . -/
def validateInsuranceId (id : String) : Bool :=
  (8 ≤ id.length && id.length ≤ 12) && id.data.all isUpperAlnum

/-- NPHIESValidator.validateProviderId: regex ^[0-9]{7}$ . -/
def validateProviderId (id : String) : Bool :=
  id.length == 7 && id.data.all Char.isDigit

/-- NPHIESValidator.validateServiceCode: regex ^[A-Z0-9]{3,10}$ . -/
def validateServiceCode (code : String) : Bool :=
  (3 ≤ code.length && code.length ≤ 10) && code.data.all isUpperAlnum

/-- Optional decimal part of the ICD-10 regex: (\.[0-9]{1,2})? applied to
the rest of the string after the first three characters. -/
def icdDecimalTail : List Char → Bool
  | [] => true
  | '.' :: ds => (ds.length == 1 || ds.length == 2) && ds.all Char.isDigit
  | _ => false

/-- NPHIESValidator.validateDiagnosisCode: regex ^[A-Z][0-9]{2}(\.[0-9]{1,2})?$ . -/
def validateDiagnosisCode (code : String) : Bool :=
  match code.data with
  | c0 :: c1 :: c2 :: rest =>
    c0.isUpper && c1.isDigit && c2.isDigit && icdDecimalTail rest
  | _ => false

/-- NPHIESEligibilityRequest from nphies-types.ts. -/
structure NPHIESEligibilityRequest where
  patientId : String
  insuranceId : String
  providerId : String
  serviceDate : String
  serviceType : Option String := none
deriving Repr, DecidableEq

/-- The {isValid, errors} record every validator returns. -/
structure ValidationResult where
  isValid : Bool
  errors : List String
deriving Repr, DecidableEq

def invalidPatientIdMsg : String :=
  "Invalid patient ID format. Must be 10-digit Saudi National ID."

def invalidInsuranceIdMsg : String := "Invalid insurance ID format."

def invalidProviderIdMsg : String :=
  "Invalid provider ID format. Must be 7-digit provider code."

def invalidServiceDateMsg : String := "Invalid or missing service date."

/-- NPHIESValidator.validateEligibilityRequest. The serviceDate check is
`!request.serviceDate || isNaN(Date.parse(request.serviceDate))`: an empty
string is falsy, and Date.parse is the oracle `dateParses`. -/
def validateEligibilityRequest (dateParses : String → Bool)
    (request : NPHIESEligibilityRequest) : ValidationResult :=
  let errors : List String := []
  let errors := if !validatePatientId request.patientId then
    errors ++ [invalidPatientIdMsg] else errors
  let errors := if !validateInsuranceId request.insuranceId then
    errors ++ [invalidInsuranceIdMsg] else errors
  let errors := if !validateProviderId request.providerId then
    errors ++ [invalidProviderIdMsg] else errors
  let errors := if request.serviceDate == "" || !dateParses request.serviceDate then
    errors ++ [invalidServiceDateMsg] else errors
  { isValid := errors.length == 0, errors := errors }

/-- The patientInfo field of NPHIESClaimRequest. -/
structure PatientInfo where
  id : String
  name : String
  dob : String
  gender : String
deriving Repr, DecidableEq

/-- The providerInfo field of NPHIESClaimRequest. -/
structure ProviderInfo where
  id : String
  name : String
  license : String
deriving Repr, DecidableEq

/-- One entry of NPHIESClaimRequest.services. -/
structure ServiceItem where
  code : String
  description : String
  quantity : Int
  unitPrice : Int
  date : String
deriving Repr, DecidableEq

/-- One entry of NPHIESClaimRequest.diagnosis. -/
structure DiagnosisItem where
  code : String
  description : String
  dtype : String
deriving Repr, DecidableEq

/-- NPHIESClaimRequest from nphies-types.ts. The literal unions of the TS
type are modelled as String because validateClaimRequest checks claimType
against the allowed literals at runtime. -/
structure NPHIESClaimRequest where
  patientInfo : PatientInfo
  providerInfo : ProviderInfo
  services : List ServiceItem
  diagnosis : List DiagnosisItem
  totalAmount : Int
  claimType : String
deriving Repr, DecidableEq

def claimPatientMsg : String := "Invalid patient ID in patient info."

def claimProviderMsg : String := "Invalid provider ID in provider info."

def claimTypeMsg : String :=
  "Invalid claim type. Must be one of: inpatient, outpatient, pharmacy, dental"

/-- The `validClaimTypes` array of validateClaimRequest. -/
def validClaimTypes : List String := ["inpatient", "outpatient", "pharmacy", "dental"]

/-- Body of the services.forEach callback: the three pushes for one entry,
in source order (code format, quantity > 0, unitPrice > 0), each message
tagged with the entry index. -/
def serviceEntryErrors (i : Nat) (s : ServiceItem) : List String :=
  (if !validateServiceCode s.code then
    ["Invalid service code at index " ++ toString i ++ ": " ++ s.code] else []) ++
  (if s.quantity ≤ 0 then
    ["Invalid quantity at service index " ++ toString i] else []) ++
  (if s.unitPrice ≤ 0 then
    ["Invalid unit price at service index " ++ toString i] else [])

/-- Body of the diagnosis.forEach callback: one indexed push when the code
fails the ICD-10 regex. -/
def diagnosisEntryErrors (i : Nat) (d : DiagnosisItem) : List String :=
  if !validateDiagnosisCode d.code then
    ["Invalid diagnosis code at index " ++ toString i ++ ": " ++ d.code] else []

/-- NPHIESValidator.validateClaimRequest. -/
def validateClaimRequest (request : NPHIESClaimRequest) : ValidationResult :=
  let errors : List String := []
  let errors := if !validatePatientId request.patientInfo.id then
    errors ++ [claimPatientMsg] else errors
  let errors := if !validateProviderId request.providerInfo.id then
    errors ++ [claimProviderMsg] else errors
  let errors := errors ++
    (request.services.enum.flatMap fun p => serviceEntryErrors p.1 p.2)
  let errors := errors ++
    (request.diagnosis.enum.flatMap fun p => diagnosisEntryErrors p.1 p.2)
  let errors := if !(validClaimTypes.contains request.claimType) then
    errors ++ [claimTypeMsg] else errors
  { isValid := errors.length == 0, errors := errors }

/-- A concrete claim exhibiting exactly the defect kinds listed by the C2
test scenario: invalid service codes, a zero quantity, a negative unit
price, an invalid diagnosis code, and an invalid claimType literal, with
valid patient and provider ids. -/
def c2BadClaim : NPHIESClaimRequest where
  patientInfo := ⟨"1234567890", "Test", "1990-01-01", "M"⟩
  providerInfo := ⟨"1234567", "Clinic", "L-1"⟩
  services := [⟨"ab", "svc0", 0, 10, "2024-01-01"⟩,
               ⟨"cd", "svc1", 1, -5, "2024-01-01"⟩]
  diagnosis := [⟨"invalid", "dx", "primary"⟩]
  totalAmount := 100
  claimType := "invalid-type"

/-! Backend gateway zod schemas (Express server variant). Each check is
embedded exactly as written in the schema; a request produces the 400
"Validation failed" response iff some field check is false. -/

/-- EligibilityRequestSchema.patientId: z.string().length(10, message
"Patient ID must be 10 digits") — the check itself is length only. -/
def zodPatientIdOk (s : String) : Bool := s.length == 10

/-- EligibilityRequestSchema.insuranceId: z.string().min(8).max(12). -/
def zodInsuranceIdOk (s : String) : Bool := 8 ≤ s.length && s.length ≤ 12

/-- EligibilityRequestSchema.providerId: z.string().length(7). -/
def zodProviderIdOk (s : String) : Bool := s.length == 7

/-- Tail of a zod datetime fraction: zero or more digits followed by the
terminating Z (the caller has already consumed the dot and one digit). -/
def digitsThenZ : List Char → Bool
  | [] => false
  | ['Z'] => true
  | c :: cs => c.isDigit && digitsThenZ cs

/-- End of a zod datetime after the seconds: either Z directly, or a dot,
at least one digit, then Z — the (\.\d+)?Z suffix. -/
def zodDatetimeTail : List Char → Bool
  | ['Z'] => true
  | '.' :: c :: cs => c.isDigit && digitsThenZ cs
  | _ => false

/-- EligibilityRequestSchema.serviceDate: z.string().datetime(). With no
options zod accepts exactly ^[0-9]{4}-[0-9]{2}-[0-9]{2}T[0-9]{2}:[0-9]{2}:
[0-9]{2}(\.[0-9]+)?Z$ — a full ISO-8601 UTC datetime, never a bare date. -/
def zodDatetimeOk (s : String) : Bool :=
  match s.data with
  | y1 :: y2 :: y3 :: y4 :: '-' :: m1 :: m2 :: '-' :: d1 :: d2 :: 'T' ::
    h1 :: h2 :: ':' :: n1 :: n2 :: ':' :: s1 :: s2 :: rest =>
    [y1, y2, y3, y4, m1, m2, d1, d2, h1, h2, n1, n2, s1, s2].all Char.isDigit &&
    zodDatetimeTail rest
  | _ => false

/-- EligibilityRequestSchema as a whole: the request parses (no 400) iff
every field check passes. serviceType is optional with no constraint. -/
def zodEligibilityOk (r : NPHIESEligibilityRequest) : Bool :=
  zodPatientIdOk r.patientId && zodInsuranceIdOk r.insuranceId &&
  zodProviderIdOk r.providerId && zodDatetimeOk r.serviceDate

/-- ClaimRequestSchema.diagnosis code regex, embedded literally: the
source regex literal /^[A-Z][0-9]{2}(\\.[0-9]{1,2})?$/ double-escapes the
dot, so the optional group matches a literal backslash, then any single
character, then 1-2 digits. -/
def zodDiagnosisTail : List Char → Bool
  | [] => true
  | '\\' :: _ :: ds => (ds.length == 1 || ds.length == 2) && ds.all Char.isDigit
  | _ => false

/-- ClaimRequestSchema.diagnosis: z.string().regex(/^[A-Z][0-9]{2}(\\.[0-9]{1,2})?$/,
message "Invalid ICD-10 format"). -/
def zodDiagnosisCodeOk (code : String) : Bool :=
  match code.data with
  | c0 :: c1 :: c2 :: rest =>
    c0.isUpper && c1.isDigit && c2.isDigit && zodDiagnosisTail rest
  | _ => false

/-! retry-utils.ts. The async operation is modelled as a function from the
invocation number (1-based) to an Except outcome; the backoff delays and
jitter affect only timing, not which attempts run or what is returned, so
they are not part of the state. The result pairs the outcome (none models
the unreachable trailing `throw lastError!`, hit only when maxAttempts is
0 and the loop body never ran) with the number of invocations made. -/

/-- The retry loop of retryWithBackoff, from a given attempt number with
the given fuel (remaining loop iterations). On failure the loop stops when
the attempt equals maxAttempts or shouldRetry rejects the error. -/
def retryGo {E A : Type} (op : Nat → Except E A) (should : E → Nat → Bool)
    (maxAttempts : Nat) : Nat → Nat → Option (Except E A) × Nat
  | _, 0 => (none, 0)
  | attempt, fuel + 1 =>
    match op attempt with
    | Except.ok a => (some (Except.ok a), 1)
    | Except.error e =>
      if attempt = maxAttempts ∨ should e attempt = false then
        (some (Except.error e), 1)
      else
        let r := retryGo op should maxAttempts (attempt + 1) fuel
        (r.1, r.2 + 1)

/-- retryWithBackoff: run the loop for attempt = 1..maxAttempts. -/
def retryWithBackoff {E A : Type} (op : Nat → Except E A)
    (should : E → Nat → Bool) (maxAttempts : Nat) : Option (Except E A) × Nat :=
  retryGo op should maxAttempts 1 maxAttempts

theorem retryGo_count_le {E A : Type} (op : Nat → Except E A)
    (should : E → Nat → Bool) (maxAttempts : Nat) :
    ∀ (fuel attempt : Nat), (retryGo op should maxAttempts attempt fuel).2 ≤ fuel := by
  intro fuel
  induction fuel with
  | zero => intro attempt; simp [retryGo]
  | succ n ih =>
    intro attempt
    simp only [retryGo]
    cases op attempt with
    | ok a => simp
    | error e =>
      by_cases h : attempt = maxAttempts ∨ should e attempt = false
      · simp [h]
      · simpa [h] using ih (attempt + 1)

theorem retryGo_reaches_ok {E A : Type} (op : Nat → Except E A)
    (should : E → Nat → Bool) (maxAttempts : Nat) :
    ∀ (fuel attempt k : Nat) (a : A), attempt ≤ k → k ≤ maxAttempts →
      k < attempt + fuel →
      (∀ j, attempt ≤ j → j < k → ∃ e, op j = Except.error e ∧ should e j = true) →
      op k = Except.ok a →
      retryGo op should maxAttempts attempt fuel = (some (Except.ok a), k + 1 - attempt) := by
  intro fuel
  induction fuel with
  | zero => intro attempt k a h1 h2 h3 _ _; omega
  | succ n ih =>
    intro attempt k a h1 h2 h3 hRetry hk
    rcases Nat.eq_or_lt_of_le h1 with heq | hlt
    · subst heq
      simp [retryGo, hk, Nat.add_sub_cancel_left]
    · obtain ⟨e, hop, hsh⟩ := hRetry attempt (Nat.le_refl _) hlt
      have hne : ¬ (attempt = maxAttempts ∨ should e attempt = false) := by
        intro h
        rcases h with h | h
        · omega
        · simp [hsh] at h
      rw [retryGo, hop]
      simp only [hne, if_false]
      have hrec := ih (attempt + 1) k a (by omega) h2 (by omega)
        (fun j hj1 hj2 => hRetry j (by omega) hj2) hk
      rw [hrec]
      have harith : k + 1 - (attempt + 1) + 1 = k + 1 - attempt := by omega
      exact congrArg (fun m => (some (Except.ok a), m)) harith

theorem retryGo_reaches_error {E A : Type} (op : Nat → Except E A)
    (should : E → Nat → Bool) (maxAttempts : Nat) :
    ∀ (fuel attempt k : Nat) (e : E), attempt ≤ k → k ≤ maxAttempts →
      k < attempt + fuel →
      (∀ j, attempt ≤ j → j < k → ∃ e2, op j = Except.error e2 ∧ should e2 j = true) →
      op k = Except.error e → (k = maxAttempts ∨ should e k = false) →
      retryGo op should maxAttempts attempt fuel =
        (some (Except.error e), k + 1 - attempt) := by
  intro fuel
  induction fuel with
  | zero => intro attempt k e h1 h2 h3 _ _ _; omega
  | succ n ih =>
    intro attempt k e h1 h2 h3 hRetry hk hStop
    rcases Nat.eq_or_lt_of_le h1 with heq | hlt
    · subst heq
      rw [retryGo, hk]
      simp [hStop, Nat.add_sub_cancel_left]
    · obtain ⟨e2, hop, hsh⟩ := hRetry attempt (Nat.le_refl _) hlt
      have hne : ¬ (attempt = maxAttempts ∨ should e2 attempt = false) := by
        intro h
        rcases h with h | h
        · omega
        · simp [hsh] at h
      rw [retryGo, hop]
      simp only [hne, if_false]
      have hrec := ih (attempt + 1) k e (by omega) h2 (by omega)
        (fun j hj1 hj2 => hRetry j (by omega) hj2) hk hStop
      rw [hrec]
      have harith : k + 1 - (attempt + 1) + 1 = k + 1 - attempt := by omega
      exact congrArg (fun m => (some (Except.error e), m)) harith

/-- JS Array.startsWith analogue on character lists: the second list is a
leading segment of the first. -/
def startsWithChars : List Char → List Char → Bool
  | _, [] => true
  | [], _ :: _ => false
  | h :: t, p :: ps => h == p && startsWithChars t ps

/-- JS String.includes analogue: the second list occurs as a contiguous
segment of the first. -/
def includesChars : List Char → List Char → Bool
  | [], pat => startsWithChars [] pat
  | h :: t, pat => startsWithChars (h :: t) pat || includesChars t pat

/-- JS String.toLowerCase analogue on the underlying characters (all
strings in play are ASCII). -/
def lowerChars (cs : List Char) : List Char := cs.map Char.toLower

/-- The retryableErrors array of the default shouldRetry predicate. -/
def retryableErrors : List String :=
  ["ECONNREFUSED", "ETIMEDOUT", "ENOTFOUND", "network"]

/-- isRetryableError / DEFAULT_OPTIONS.shouldRetry from retry-utils.ts:
true iff the lowercased message contains one of the lowercased markers.
Errors are modelled by their message string. -/
def isRetryableError (message : String) : Bool :=
  retryableErrors.any fun e =>
    includesChars (lowerChars message.data) (lowerChars e.data)

/-! nphies-api.ts frontend client. Each operation is modelled by its
outbound-call behaviour: the underlying HTTP post is an oracle from the
invocation number to an outcome, and the value recorded is the final
outcome paired with how many times the post was invoked. checkEligibility
and submitClaim wrap the post in retryWithBackoff with maxAttempts 3 and
shouldRetry = isRetryableError; submitPreAuth and getClaimStatus call the
post exactly once and propagate its outcome. -/

def checkEligibilityClient {R : Type} (post : Nat → Except String R) :
    Option (Except String R) × Nat :=
  retryWithBackoff post (fun e _ => isRetryableError e) 3

def submitClaimClient {R : Type} (post : Nat → Except String R) :
    Option (Except String R) × Nat :=
  retryWithBackoff post (fun e _ => isRetryableError e) 3

def submitPreAuthClient {R : Type} (post : Nat → Except String R) :
    Except String R × Nat :=
  (post 1, 1)

def getClaimStatusClient {R : Type} (post : Nat → Except String R) :
    Except String R × Nat :=
  (post 1, 1)

/-! Backend NPHIESClient token cache. The mutable fields accessToken and
tokenExpiryTime; Date.now() is the Nat parameter `now`; the outcome of the
OAuth POST is an Option (access_token, expires_in seconds), none modelling
a thrown/non-success axios response. -/

structure ClientState where
  accessToken : Option String
  tokenExpiryTime : Option Nat
deriving Repr, DecidableEq

/-- JS falsiness of an optional string field: undefined or empty. -/
def falsyStr : Option String → Bool
  | none => true
  | some s => s == ""

/-- JS falsiness of an optional numeric field: undefined or zero. -/
def falsyNum : Option Nat → Bool
  | none => true
  | some n => n == 0

/-- The ensureAuthenticated guard: !this.accessToken ||
!this.tokenExpiryTime || Date.now() >= this.tokenExpiryTime. -/
def needsAuth (now : Nat) (st : ClientState) : Bool :=
  falsyStr st.accessToken || falsyNum st.tokenExpiryTime ||
    decide (st.tokenExpiryTime.getD 0 ≤ now)

/-- NPHIESClient.authenticate: on a non-success response the catch block
rethrows before either field is assigned (the state is untouched and the
Bool is false); on success both fields are assigned from the response,
expiry = Date.now() + expires_in * 1000. -/
def authenticate (resp : Option (String × Nat)) (now : Nat)
    (st : ClientState) : ClientState × Bool :=
  match resp with
  | none => (st, false)
  | some (tok, expiresIn) => (⟨some tok, some (now + expiresIn * 1000)⟩, true)

/-- NPHIESClient.ensureAuthenticated: authenticate exactly once when the
guard fires, otherwise do nothing. Returns (state, number of
authentication calls, success flag). -/
def ensureAuthenticated (resp : Option (String × Nat)) (now : Nat)
    (st : ClientState) : ClientState × Nat × Bool :=
  if needsAuth now st then
    ((authenticate resp now st).1, 1, (authenticate resp now st).2)
  else (st, 0, true)

end Nphies

namespace Nphies

/-- Claim C1: validateEligibilityRequest runs all four field checks
(patientId, insuranceId, providerId, serviceDate-parseability)
unconditionally with no short-circuit, appends error messages in the order
patient, insurance, provider, serviceDate, returns isValid true iff the
errors list is empty, and a request in which all four fields are invalid
yields exactly the four messages, hence 4 errors. -/
theorem validateEligibilityRequest_accumulates_c1
    (dateParses : String → Bool) (r : NPHIESEligibilityRequest) :
    (validateEligibilityRequest dateParses r).errors =
      (if validatePatientId r.patientId then [] else [invalidPatientIdMsg]) ++
      (if validateInsuranceId r.insuranceId then [] else [invalidInsuranceIdMsg]) ++
      (if validateProviderId r.providerId then [] else [invalidProviderIdMsg]) ++
      (if r.serviceDate == "" || !dateParses r.serviceDate then
        [invalidServiceDateMsg] else []) ∧
    ((validateEligibilityRequest dateParses r).isValid = true ↔
      (validateEligibilityRequest dateParses r).errors = []) ∧
    (validatePatientId r.patientId = false →
     validateInsuranceId r.insuranceId = false →
     validateProviderId r.providerId = false →
     (r.serviceDate == "" || !dateParses r.serviceDate) = true →
      (validateEligibilityRequest dateParses r).errors =
        [invalidPatientIdMsg, invalidInsuranceIdMsg, invalidProviderIdMsg,
         invalidServiceDateMsg] ∧
      (validateEligibilityRequest dateParses r).errors.length = 4) := by
  cases h1 : validatePatientId r.patientId <;>
  cases h2 : validateInsuranceId r.insuranceId <;>
  cases h3 : validateProviderId r.providerId <;>
  cases h4 : (r.serviceDate == "" || !dateParses r.serviceDate) <;>
  simp [validateEligibilityRequest, h1, h2, h3, h4]

/-- Concrete instantiation of C1: the all-invalid request from the spec
(patientId too short, insuranceId too short, providerId too long,
unparseable serviceDate) produces exactly 4 errors. -/
theorem validateEligibilityRequest_accumulates_c1_witness :
    (validateEligibilityRequest (fun _ => false)
      { patientId := "123", insuranceId := "AB", providerId := "12345678",
        serviceDate := "invalid-date" }).errors.length = 4 := by
  have h := validateEligibilityRequest_accumulates_c1 (fun _ => false)
    { patientId := "123", insuranceId := "AB", providerId := "12345678",
      serviceDate := "invalid-date" }
  exact (h.2.2 (by decide) (by decide) (by decide) (by decide)).2

/-- Claim C2: validateClaimRequest validates patientInfo.id, then
providerInfo.id, then each services entry (code format, quantity > 0,
unitPrice > 0, indexed), then each diagnosis entry (code format, indexed),
then the claimType literal; every check runs regardless of earlier
failures (the errors list is the concatenation of the independent parts,
in that order), isValid is true iff no errors were collected, and the
test-scenario claim with an invalid service code, zero quantity, negative
price, an invalid diagnosis code and an invalid claimType yields more
than 5 errors. -/
theorem validateClaimRequest_accumulates_c2 :
    (∀ r : NPHIESClaimRequest,
      (validateClaimRequest r).errors =
        (if validatePatientId r.patientInfo.id then [] else [claimPatientMsg]) ++
        (if validateProviderId r.providerInfo.id then [] else [claimProviderMsg]) ++
        (r.services.enum.flatMap fun p => serviceEntryErrors p.1 p.2) ++
        (r.diagnosis.enum.flatMap fun p => diagnosisEntryErrors p.1 p.2) ++
        (if validClaimTypes.contains r.claimType then [] else [claimTypeMsg]) ∧
      ((validateClaimRequest r).isValid = true ↔
        (validateClaimRequest r).errors = [])) ∧
    5 < (validateClaimRequest c2BadClaim).errors.length := by
  constructor
  · intro r
    constructor
    · cases h1 : validatePatientId r.patientInfo.id <;>
      cases h2 : validateProviderId r.providerInfo.id <;>
      by_cases h3 : r.claimType ∈ validClaimTypes <;>
      simp [validateClaimRequest, h1, h2, h3, List.append_assoc]
    · have hv : (validateClaimRequest r).isValid =
          ((validateClaimRequest r).errors.length == 0) := rfl
      rw [hv]
      simp
  · decide

/-- Claim C10: validateClaimRequest never examines totalAmount, and a
claim with valid ids, a valid claimType and empty services/diagnosis
arrays is reported valid with no errors, for every totalAmount. -/
theorem validateClaimRequest_ignores_totalAmount_c10 :
    (∀ (r : NPHIESClaimRequest) (t : Int),
      validateClaimRequest { r with totalAmount := t } = validateClaimRequest r) ∧
    (∀ r : NPHIESClaimRequest,
      validatePatientId r.patientInfo.id = true →
      validateProviderId r.providerInfo.id = true →
      validClaimTypes.contains r.claimType = true →
      r.services = [] → r.diagnosis = [] →
      validateClaimRequest r = { isValid := true, errors := [] }) := by
  constructor
  · intro r t
    rfl
  · intro r h1 h2 h3 h4 h5
    have h3m : r.claimType ∈ validClaimTypes := by simpa using h3
    simp [validateClaimRequest, h1, h2, h3m, h4, h5]

/-- Concrete instantiation of C10: an all-valid claim with empty nested
arrays and a negative totalAmount is accepted. -/
theorem validateClaimRequest_ignores_totalAmount_c10_witness :
    validateClaimRequest
      ⟨⟨"1234567890", "Test", "1990-01-01", "F"⟩,
       ⟨"1234567", "Clinic", "L-1"⟩, [], [], -7, "dental"⟩ =
      { isValid := true, errors := [] } := by
  exact validateClaimRequest_ignores_totalAmount_c10.2 _
    (by decide) (by decide) (by decide) rfl rfl

/-- Claim C3 (bug evaluation): the spec's end-to-end eligibility request —
valid patientId, insuranceId and providerId with serviceDate "2024-01-15"
in YYYY-MM-DD format — is rejected by the gateway schema, because
z.string().datetime() only accepts a full ISO-8601 UTC datetime; the
date-only string therefore produces the 400 "Validation failed" response,
even though the three identifier checks all pass and the frontend
validator accepts the same request whenever Date.parse accepts the date. -/
theorem zodEligibility_rejects_dateOnly_c3 :
    zodEligibilityOk
      { patientId := "1234567890", insuranceId := "ABC123456",
        providerId := "1234567", serviceDate := "2024-01-15" } = false ∧
    zodPatientIdOk "1234567890" = true ∧
    zodInsuranceIdOk "ABC123456" = true ∧
    zodProviderIdOk "1234567" = true ∧
    zodDatetimeOk "2024-01-15" = false ∧
    zodDatetimeOk "2024-01-15T00:00:00Z" = true ∧
    (validateEligibilityRequest (fun s => s == "2024-01-15")
      { patientId := "1234567890", insuranceId := "ABC123456",
        providerId := "1234567", serviceDate := "2024-01-15" }).isValid = true := by
  decide

/-- Claim C4 (bug evaluation): NPHIESValidator.validateDiagnosisCode
accepts exactly one uppercase letter, two digits, and an optional dot plus
1-2 digits, but the gateway claim schema does not: its regex literal
double-escapes the dot, so "A01.5" passes the validator yet fails the
schema, while the schema instead accepts a literal backslash before the
decimal part. -/
theorem diagnosisCode_validator_vs_schema_c4 :
    validateDiagnosisCode "A01" = true ∧
    validateDiagnosisCode "A01.5" = true ∧
    validateDiagnosisCode "A01.55" = true ∧
    validateDiagnosisCode "a01" = false ∧
    validateDiagnosisCode "01.5" = false ∧
    validateDiagnosisCode "A01.555" = false ∧
    zodDiagnosisCodeOk "A01" = true ∧
    zodDiagnosisCodeOk "A01.5" = false ∧
    zodDiagnosisCodeOk "A01\\.5" = true := by
  decide

/-- Claim C5 (bug evaluation): NPHIESValidator.validatePatientId accepts
exactly 10-digit strings (9 digits, 11 digits, non-digits, empty all
rejected), but the gateway eligibility schema checks only the length, so
the 10-letter string "abcdefghij" — rejected by the validator — passes the
schema despite its own "Patient ID must be 10 digits" message. -/
theorem patientId_validator_vs_schema_c5 :
    validatePatientId "1234567890" = true ∧
    validatePatientId "123456789" = false ∧
    validatePatientId "12345678901" = false ∧
    validatePatientId "123456789X" = false ∧
    validatePatientId "" = false ∧
    validatePatientId "abcdefghij" = false ∧
    zodPatientIdOk "abcdefghij" = true := by
  decide

/-- Claim C6: retryWithBackoff invokes the operation at most maxAttempts
times; a success at attempt 1, or at any attempt k whose predecessors all
failed retryably, is returned immediately after exactly k invocations; a
failure judged non-retryable, or occurring on attempt maxAttempts, is
propagated after exactly that invocation; and with maxAttempts = 3, two
retryable failures followed by a success invoke the operation exactly 3
times and return the third success. -/
theorem retryWithBackoff_policy_c6 {E A : Type} (op : Nat → Except E A)
    (should : E → Nat → Bool) (maxAttempts : Nat) :
    (retryWithBackoff op should maxAttempts).2 ≤ maxAttempts ∧
    (∀ a : A, 1 ≤ maxAttempts → op 1 = Except.ok a →
      retryWithBackoff op should maxAttempts = (some (Except.ok a), 1)) ∧
    (∀ e : E, 1 ≤ maxAttempts → op 1 = Except.error e → should e 1 = false →
      retryWithBackoff op should maxAttempts = (some (Except.error e), 1)) ∧
    (∀ (k : Nat) (a : A), 1 ≤ k → k ≤ maxAttempts →
      (∀ j, 1 ≤ j → j < k → ∃ e, op j = Except.error e ∧ should e j = true) →
      op k = Except.ok a →
      retryWithBackoff op should maxAttempts = (some (Except.ok a), k)) ∧
    (∀ (k : Nat) (e : E), 1 ≤ k → k ≤ maxAttempts →
      (∀ j, 1 ≤ j → j < k → ∃ e2, op j = Except.error e2 ∧ should e2 j = true) →
      op k = Except.error e → (k = maxAttempts ∨ should e k = false) →
      retryWithBackoff op should maxAttempts = (some (Except.error e), k)) ∧
    (∀ (e1 e2 : E) (a : A), op 1 = Except.error e1 → should e1 1 = true →
      op 2 = Except.error e2 → should e2 2 = true → op 3 = Except.ok a →
      retryWithBackoff op should 3 = (some (Except.ok a), 3)) := by
  refine ⟨?_, ?_, ?_, ?_, ?_, ?_⟩
  · exact retryGo_count_le op should maxAttempts maxAttempts 1
  · intro a hm hk
    have h := retryGo_reaches_ok op should maxAttempts maxAttempts 1 1 a
      (Nat.le_refl 1) hm (by omega) (fun j hj1 hj2 => absurd hj2 (by omega)) hk
    simpa [retryWithBackoff] using h
  · intro e hm hk hs
    have h := retryGo_reaches_error op should maxAttempts maxAttempts 1 1 e
      (Nat.le_refl 1) hm (by omega) (fun j hj1 hj2 => absurd hj2 (by omega)) hk
      (Or.inr hs)
    simpa [retryWithBackoff] using h
  · intro k a hk1 hk2 hRetry hk
    have h := retryGo_reaches_ok op should maxAttempts maxAttempts 1 k a hk1 hk2
      (by omega) (fun j hj1 hj2 => hRetry j hj1 hj2) hk
    simpa [retryWithBackoff] using h
  · intro k e hk1 hk2 hRetry hk hStop
    have h := retryGo_reaches_error op should maxAttempts maxAttempts 1 k e hk1 hk2
      (by omega) (fun j hj1 hj2 => hRetry j hj1 hj2) hk hStop
    simpa [retryWithBackoff] using h
  · intro e1 e2 a ho1 hs1 ho2 hs2 ho3
    have h := retryGo_reaches_ok op should 3 3 1 3 a (by omega) (by omega)
      (by omega)
      (fun j hj1 hj2 => by
        rcases j with _ | _ | _ | j
        · omega
        · exact ⟨e1, ho1, hs1⟩
        · exact ⟨e2, ho2, hs2⟩
        · omega) ho3
    simpa [retryWithBackoff] using h

/-- Concrete instantiation of C6: an operation whose first failure is
non-retryable is invoked exactly once and the error is propagated. -/
theorem retryWithBackoff_policy_c6_witness :
    retryWithBackoff (fun _ => (Except.error "boom" : Except String Nat))
      (fun _ _ => false) 3 = (some (Except.error "boom"), 1) := by
  have h := retryWithBackoff_policy_c6
    (fun _ => (Except.error "boom" : Except String Nat)) (fun _ _ => false) 3
  exact h.2.2.1 "boom" (by omega) rfl rfl

/-- Claim C9: retry asymmetry of the four frontend gateway operations —
checkEligibility and submitClaim are wrapped in retryWithBackoff with
maxAttempts 3 (at most 3 underlying invocations; exactly 3 under repeated
retryable failures, the last outcome propagated), while submitPreAuth and
getClaimStatus invoke the underlying call exactly once and propagate its
outcome unchanged. -/
theorem client_retry_asymmetry_c9 {R : Type} (post : Nat → Except String R) :
    (checkEligibilityClient post).2 ≤ 3 ∧
    (submitClaimClient post).2 ≤ 3 ∧
    submitPreAuthClient post = (post 1, 1) ∧
    getClaimStatusClient post = (post 1, 1) ∧
    (∀ e1 e2 e3, post 1 = Except.error e1 → isRetryableError e1 = true →
      post 2 = Except.error e2 → isRetryableError e2 = true →
      post 3 = Except.error e3 →
      checkEligibilityClient post = (some (Except.error e3), 3) ∧
      submitClaimClient post = (some (Except.error e3), 3)) := by
  refine ⟨?_, ?_, rfl, rfl, ?_⟩
  · exact retryGo_count_le post (fun e _ => isRetryableError e) 3 3 1
  · exact retryGo_count_le post (fun e _ => isRetryableError e) 3 3 1
  · intro e1 e2 e3 ho1 hs1 ho2 hs2 ho3
    have h := retryGo_reaches_error post (fun e _ => isRetryableError e) 3 3 1 3
      e3 (by omega) (by omega) (by omega)
      (fun j hj1 hj2 => by
        rcases j with _ | _ | _ | j
        · omega
        · exact ⟨e1, ho1, hs1⟩
        · exact ⟨e2, ho2, hs2⟩
        · omega) ho3 (Or.inl rfl)
    constructor <;>
      simpa [checkEligibilityClient, submitClaimClient, retryWithBackoff] using h

/-- Concrete instantiation of C9: an axios "Network Error" is retryable,
so checkEligibility exhausts all 3 attempts before propagating it. -/
theorem client_retry_asymmetry_c9_witness :
    checkEligibilityClient
      (fun _ => (Except.error "Network Error" : Except String Nat)) =
      (some (Except.error "Network Error"), 3) := by
  have h := client_retry_asymmetry_c9
    (fun _ => (Except.error "Network Error" : Except String Nat))
  exact (h.2.2.2.2 "Network Error" "Network Error" "Network Error"
    rfl (by decide) rfl (by decide) rfl).1

/-- Claim C7: the token-cache state machine — a cached, non-empty token
whose expiry lies in the future is reused with zero authentication calls;
an empty cache or a reached expiry triggers exactly one authentication
call; and concretely, a first request from the empty state performs one
authentication call and stores the token with expiry now + lifetime*1000,
a second request before that expiry performs zero calls and leaves the
state unchanged, and a request at or after the expiry performs exactly one
more call. -/
theorem tokenCache_c7 (resp resp2 resp3 : Option (String × Nat))
    (st : ClientState) (now exp0 life t1 t2 t3 : Nat) (tok tok1 : String) :
    (st.accessToken = some tok → tok ≠ "" → st.tokenExpiryTime = some exp0 →
      now < exp0 → ensureAuthenticated resp now st = (st, 0, true)) ∧
    (st.accessToken = none → (ensureAuthenticated resp now st).2.1 = 1) ∧
    (st.tokenExpiryTime = some exp0 → exp0 ≤ now →
      (ensureAuthenticated resp now st).2.1 = 1) ∧
    (ensureAuthenticated (some (tok1, life)) t1 ⟨none, none⟩ =
      (⟨some tok1, some (t1 + life * 1000)⟩, 1, true)) ∧
    (tok1 ≠ "" → t2 < t1 + life * 1000 →
      ensureAuthenticated resp2 t2 ⟨some tok1, some (t1 + life * 1000)⟩ =
        (⟨some tok1, some (t1 + life * 1000)⟩, 0, true)) ∧
    (t1 + life * 1000 ≤ t3 →
      (ensureAuthenticated resp3 t3 ⟨some tok1, some (t1 + life * 1000)⟩).2.1 = 1) := by
  refine ⟨?_, ?_, ?_, ?_, ?_, ?_⟩
  · intro h1 h2 h3 h4
    have hx : exp0 ≠ 0 := by omega
    have hy : ¬ exp0 ≤ now := by omega
    simp [ensureAuthenticated, needsAuth, falsyStr, falsyNum, h1, h2, h3, hx, hy]
  · intro h1
    simp [ensureAuthenticated, needsAuth, falsyStr, h1]
  · intro h1 h2
    simp [ensureAuthenticated, needsAuth, falsyStr, falsyNum, h1, h2]
  · simp [ensureAuthenticated, needsAuth, falsyStr, authenticate]
  · intro h1 h2
    have hx : t1 + life * 1000 ≠ 0 := by omega
    have hy : ¬ t1 + life * 1000 ≤ t2 := by omega
    simp [ensureAuthenticated, needsAuth, falsyStr, falsyNum, h1, hx, hy]
  · intro h1
    simp [ensureAuthenticated, needsAuth, falsyStr, falsyNum, h1]

/-- Concrete instantiation of C7: a request at time 500 against a cached
token expiring at 36001000 performs zero authentication calls. -/
theorem tokenCache_c7_witness :
    ensureAuthenticated none 500 ⟨some "tok", some 36001000⟩ =
      (⟨some "tok", some 36001000⟩, 0, true) := by
  have h := tokenCache_c7 none none none ⟨some "tok", some 36001000⟩
    500 36001000 3600 0 0 0 "tok" "tok"
  exact h.1 rfl (by decide) rfl (by omega)

/-- Claim C8: the authentication call is atomic on error — a non-success
response leaves both the stored token value and the expiry instant
unchanged and reports failure; only a successful response stores the
returned token with expiry derived from the returned lifetime
(now + expires_in * 1000). -/
theorem authenticate_atomic_c8 (st : ClientState) (now : Nat) (tok : String)
    (expiresIn : Nat) :
    authenticate none now st = (st, false) ∧
    authenticate (some (tok, expiresIn)) now st =
      (⟨some tok, some (now + expiresIn * 1000)⟩, true) :=
  ⟨rfl, rfl⟩

end Nphies
